import Mathlib

/-!
# Verification of the telephony / voice-AI WebSocket session bridge

Shallow embedding of the session-bridge code: the repository contains
near-duplicate revisions of a ~250-line bridge between a telephony
media-stream WebSocket (Twilio protocol) and a voice-AI conversational
WebSocket (ElevenLabs protocol).  Two revisions are modelled here:

* `IndexJs` — the revision in `src/index.js` (first variant): no audio
  transcoder, the voice-AI audio payload is forwarded verbatim.
* `PartOne` — the revision in `src/unnamed/part_001`: adds the
  `conversationStarted` flag, the `mark` acknowledgment together with the
  conversation-start signal, an end-of-conversation signal on `stop`, and
  an ffmpeg-based audio transcoder (`convertAudioToMulaw`).

Handlers become pure functions `State → Event → State × List Action`;
JSON parse failures are modelled as `none` inputs (the `try/catch` around
`JSON.parse` logs and drops them); the external ffmpeg process and the
authentication HTTP call are modelled by explicit environment values
describing their observable behaviour.
-/

/-- The base64 alphabet, in `Buffer.toString` order. -/
def base64Chars : List Char :=
  "ABCDEFGHIJKLMNOPQRSTUVWXYZabcdefghijklmnopqrstuvwxyz0123456789+/".toList

/-- The base64 digit for a 6-bit value (`0 ≤ n < 64`). -/
def b64Char (n : Nat) : Char := base64Chars.getD n 'A'

/-- The 6-bit value of a base64 digit, `none` for a non-alphabet character. -/
def b64Value (c : Char) : Option Nat :=
  let i := base64Chars.indexOf c
  if i < 64 then some i else none

/-- Byte list → base64 digit/padding characters, three bytes per group,
as `Buffer.prototype.toString ('base64')` produces. -/
def base64EncodeGroups : List Nat → List Char
  | [] => []
  | [a] =>
    let a := a % 256
    [b64Char (a / 4), b64Char ((a % 4) * 16), '=', '=']
  | [a, b] =>
    let a := a % 256
    let b := b % 256
    [b64Char (a / 4), b64Char ((a % 4) * 16 + b / 16), b64Char ((b % 16) * 4), '=']
  | a :: b :: c :: rest =>
    let a := a % 256
    let b := b % 256
    let c := c % 256
    b64Char (a / 4) :: b64Char ((a % 4) * 16 + b / 16) ::
      b64Char ((b % 16) * 4 + c / 64) :: b64Char (c % 64) :: base64EncodeGroups rest

/-- Base64 encoding of a byte list (`Buffer.prototype.toString ('base64')`). -/
def base64Encode (bytes : List Nat) : String :=
  String.mk (base64EncodeGroups bytes)

/-- 6-bit values → bytes, four values per group; a trailing lone value is
dropped, as in forgiving base64 decoding. -/
def b64DecodeGroups : List Nat → List Nat
  | a :: b :: c :: d :: rest =>
    (a * 4 + b / 16) :: ((b % 16) * 16 + c / 4) :: ((c % 4) * 64 + d) :: b64DecodeGroups rest
  | [a, b, c] => [a * 4 + b / 16, (b % 16) * 16 + c / 4]
  | [a, b] => [a * 4 + b / 16]
  | [_] => []
  | [] => []

/-- Base64 decoding of a string into a byte list, in the forgiving style of
`Buffer.from (s, 'base64')`: characters outside the alphabet (including
padding) are skipped. -/
def base64Decode (s : String) : List Nat :=
  b64DecodeGroups (s.toList.filterMap b64Value)

/-- JavaScript truthiness of an optional string field: absent (`undefined`)
and the empty string are falsy. -/
def truthyStr : Option String → Bool
  | none => false
  | some s => s ≠ ""

/-- A parsed telephony-side (Twilio) inbound message: the `event` tag, the
optional `streamSid` field, and the optional `media.payload` field
(`message.media?.payload`). -/
structure TwilioMsg where
  event : String
  streamSid : Option String
  mediaPayload : Option String
deriving DecidableEq, Repr

/-- A parsed voice-AI-side (ElevenLabs) inbound message: the `type` tag and
the optional `audio_event.audio_base_64` field
(`message.audio_event?.audio_base_64`). -/
structure ElevenMsg where
  type : String
  audioBase64 : Option String
deriving DecidableEq, Repr

/-- A message the bridge sends to the telephony side. -/
inductive TwilioOut where
  | connected
  | mark (streamSid : Option String)
  | media (streamSid : Option String) (payload : String)
deriving DecidableEq, Repr

/-- A message the bridge sends to the voice-AI side. -/
inductive ElevenOut where
  | initialConfig
  | startConversation
  | userAudioChunk (payload : String)
  | endConversation
deriving DecidableEq, Repr

/-- An observable effect of one handler invocation: a send on either socket
or a `close ()` call on either socket. -/
inductive BridgeAction where
  | sendTwilio (msg : TwilioOut)
  | sendEleven (msg : ElevenOut)
  | closeTwilio
  | closeEleven
deriving DecidableEq, Repr

/-- `ws` readyState constants. -/
inductive ReadyState where
  | CONNECTING
  | OPEN
  | CLOSING
  | CLOSED
deriving DecidableEq, Repr

/-- The sends on the telephony socket among a handler's actions. -/
def twilioSends (acts : List BridgeAction) : List TwilioOut :=
  acts.filterMap fun a =>
    match a with
    | .sendTwilio m => some m
    | _ => none

/-- How many times the conversation-start signal was sent among a list of
actions. -/
def countStartConversation (acts : List BridgeAction) : Nat :=
  acts.countP fun a => a == BridgeAction.sendEleven .startConversation

/-- Observable behaviour of one spawned ffmpeg process: either its `close`
event fires with an exit code after having emitted a list of stdout chunks,
or its `error` event fires first (spawn/pipe failure). -/
inductive FfmpegBehavior where
  | closesWith (code : Int) (stdoutChunks : List (List Nat))
  | errorEvent
deriving DecidableEq, Repr

/-- `convertAudioToMulaw` from `src/unnamed/part_001`: the input base64 is
written to the spawned ffmpeg process; stdout chunks are accumulated; on
`close` with code 0 the promise resolves with the base64 of the concatenated
output, on a non-zero code or an `error` event it rejects.  The process's
observable behaviour is passed explicitly; the input itself only feeds the
external process. -/
def convertAudioToMulaw (_inputBase64 : String) : FfmpegBehavior → Except String String
  | .closesWith code chunks =>
    if code = 0 then .ok (base64Encode chunks.flatten)
    else .error ("FFmpeg process exited with code " ++ toString code)
  | .errorEvent => .error "ffmpeg error event"

/-- The `fetch` response seen by `getSignedUrl`: `none` models a network
failure (rejected fetch); otherwise the response's `ok` flag, `statusText`,
and the `signed_url` field of its JSON body. -/
structure FetchResponse where
  ok : Bool
  statusText : String
  signedUrl : Option String
deriving DecidableEq, Repr

/-- `getSignedUrl` from `src/index.js`: a rejected fetch propagates as an
error; a non-ok response throws `ElevenLabs API error: <statusText>`;
otherwise the body's `signed_url` is returned. -/
def getSignedUrl (resp : Option FetchResponse) : Except String (Option String) :=
  match resp with
  | none => .error "fetch failed"
  | some r =>
    if r.ok then .ok r.signedUrl
    else .error ("ElevenLabs API error: " ++ r.statusText)

/-- Outcome of the `/media-stream` connection handler's setup phase
(`src/index.js`, the `try`/`catch` around `getSignedUrl` and the creation of
the voice-AI WebSocket). -/
structure SetupResult where
  twilioSent : List TwilioOut
  twilioClosed : Bool
  voiceAiOpened : Bool
  voiceAiSent : List ElevenOut
deriving DecidableEq, Repr

/-- The setup phase of the `/media-stream` handler in `src/index.js`: send
the `connected` event, await `getSignedUrl`; on its failure the `catch`
block closes the telephony connection and the voice-AI WebSocket is never
created; on success the voice-AI WebSocket is created (nothing is sent on it
during setup). -/
def mediaStreamSetup (resp : Option FetchResponse) : SetupResult :=
  match getSignedUrl resp with
  | .error _ =>
    { twilioSent := [.connected], twilioClosed := true
      voiceAiOpened := false, voiceAiSent := [] }
  | .ok _ =>
    { twilioSent := [.connected], twilioClosed := false
      voiceAiOpened := true, voiceAiSent := [] }

/-- Per-session mutable state of the `src/index.js` bridge: the `streamSid`
and `isConnectedToElevenLabs` variables, plus the `readyState` of each
socket (consulted by the close logic). -/
structure IndexState where
  streamSid : Option String
  isConnectedToElevenLabs : Bool
  twilioReadyState : ReadyState
  elevenReadyState : ReadyState
deriving DecidableEq, Repr

/-- Per-session mutable state of the `src/unnamed/part_001` bridge:
`src/index.js` state plus the `conversationStarted` flag. -/
structure P1State where
  streamSid : Option String
  isConnectedToElevenLabs : Bool
  conversationStarted : Bool
  twilioReadyState : ReadyState
  elevenReadyState : ReadyState
deriving DecidableEq, Repr

/-- An event delivered to the `src/index.js` bridge: a telephony message
(`none` = JSON parse failure), a voice-AI message (`none` = parse failure),
or an open/close signal.  -/
inductive IndexEvent where
  | twilioMessage (m : Option TwilioMsg)
  | elevenMessage (m : Option ElevenMsg)
  | elevenOpen
  | elevenClose
  | twilioClose
deriving DecidableEq, Repr

/-- An event delivered to the `src/unnamed/part_001` bridge; a voice-AI
message also carries the behaviour of the ffmpeg process that would be
spawned for it. -/
inductive P1Event where
  | twilioMessage (m : Option TwilioMsg)
  | elevenMessage (m : Option ElevenMsg) (proc : FfmpegBehavior)
  | elevenOpen
  | elevenClose
  | twilioClose
deriving DecidableEq, Repr

namespace IndexJs

/-- The `connection.socket.on ('message')` handler of `src/index.js`
(lines 154-194): on `start` record the sid and echo a `mark`; on `media`
with a truthy payload forward a user-audio-chunk iff connected to
ElevenLabs; on `stop` close the ElevenLabs socket iff it is `OPEN`; a parse
failure is logged and dropped. -/
def twilioMessage (st : IndexState) (m : Option TwilioMsg) :
    IndexState × List BridgeAction :=
  match m with
  | none => (st, [])
  | some msg =>
    if msg.event == "start" then
      let st := { st with streamSid := msg.streamSid }
      (st, [.sendTwilio (.mark st.streamSid)])
    else if msg.event == "media" && truthyStr msg.mediaPayload
        && st.isConnectedToElevenLabs then
      (st, [.sendEleven (.userAudioChunk (msg.mediaPayload.getD ""))])
    else if msg.event == "stop" then
      if st.elevenReadyState = .OPEN then
        ({ st with elevenReadyState := .CLOSING }, [.closeEleven])
      else (st, [])
    else (st, [])

/-- The `elevenlabs.on ('message')` handler of `src/index.js`
(lines 197-221): an `audio` message with a truthy
`audio_event.audio_base_64` is wrapped verbatim into a telephony `media`
event addressed to the current `streamSid`; everything else (including
`error` messages and parse failures) is only logged. -/
def elevenMessage (st : IndexState) (m : Option ElevenMsg) :
    IndexState × List BridgeAction :=
  match m with
  | none => (st, [])
  | some msg =>
    if msg.type == "audio" && truthyStr msg.audioBase64 then
      (st, [.sendTwilio (.media st.streamSid (msg.audioBase64.getD ""))])
    else (st, [])

/-- The `elevenlabs.on ('open')` handler of `src/index.js`: sets
`isConnectedToElevenLabs = true` (the socket is `OPEN` when the event
fires). -/
def elevenOpenHandler (st : IndexState) : IndexState × List BridgeAction :=
  ({ st with isConnectedToElevenLabs := true, elevenReadyState := .OPEN }, [])

/-- The `connection.socket.on ('close')` handler of `src/index.js`
(lines 224-229): the telephony socket is `CLOSED` when the event fires; the
ElevenLabs socket is closed iff its `readyState` is `OPEN`. -/
def twilioCloseHandler (st : IndexState) : IndexState × List BridgeAction :=
  let st := { st with twilioReadyState := .CLOSED }
  if st.elevenReadyState = .OPEN then
    ({ st with elevenReadyState := .CLOSING }, [.closeEleven])
  else (st, [])

/-- The `elevenlabs.on ('close')` handler of `src/index.js`
(lines 231-237): sets `isConnectedToElevenLabs = false`; the telephony
socket is closed iff its `readyState` is `OPEN`. -/
def elevenCloseHandler (st : IndexState) : IndexState × List BridgeAction :=
  let st := { st with elevenReadyState := .CLOSED, isConnectedToElevenLabs := false }
  if st.twilioReadyState = .OPEN then
    ({ st with twilioReadyState := .CLOSING }, [.closeTwilio])
  else (st, [])

/-- One event dispatch of the `src/index.js` bridge. -/
def step (st : IndexState) : IndexEvent → IndexState × List BridgeAction
  | .twilioMessage m => twilioMessage st m
  | .elevenMessage m => elevenMessage st m
  | .elevenOpen => elevenOpenHandler st
  | .elevenClose => elevenCloseHandler st
  | .twilioClose => twilioCloseHandler st

/-- Run the `src/index.js` bridge over a list of events, accumulating all
actions in order. -/
def run (st : IndexState) : List IndexEvent → IndexState × List BridgeAction
  | [] => (st, [])
  | e :: rest =>
    let r1 := step st e
    let r2 := run r1.1 rest
    (r2.1, r1.2 ++ r2.2)

end IndexJs

namespace PartOne

/-- The `connection.socket.on ('message')` handler of
`src/unnamed/part_001` (lines 222-275): on `start` record the sid, echo a
`mark`, and — iff `!conversationStarted && isConnectedToElevenLabs` — send
the conversation-start signal and set `conversationStarted = true`; on
`media` with a truthy payload forward a user-audio-chunk (the payload is
base64-decoded and re-encoded by `Buffer.from (...).toString ('base64')`)
iff connected; on `stop`, if the ElevenLabs socket is `OPEN` send the
end-of-conversation signal and close it, then set
`conversationStarted = false`; a parse failure is logged and dropped. -/
def twilioMessage (st : P1State) (m : Option TwilioMsg) :
    P1State × List BridgeAction :=
  match m with
  | none => (st, [])
  | some msg =>
    if msg.event == "start" then
      let st := { st with streamSid := msg.streamSid }
      if !st.conversationStarted && st.isConnectedToElevenLabs then
        ({ st with conversationStarted := true },
          [.sendTwilio (.mark st.streamSid), .sendEleven .startConversation])
      else
        (st, [.sendTwilio (.mark st.streamSid)])
    else if msg.event == "media" && truthyStr msg.mediaPayload
        && st.isConnectedToElevenLabs then
      (st, [.sendEleven (.userAudioChunk
        (base64Encode (base64Decode (msg.mediaPayload.getD ""))))])
    else if msg.event == "stop" then
      if st.elevenReadyState = .OPEN then
        ({ st with elevenReadyState := .CLOSING, conversationStarted := false },
          [.sendEleven .endConversation, .closeEleven])
      else ({ st with conversationStarted := false }, [])
    else (st, [])

/-- The `elevenlabs.on ('message')` handler of `src/unnamed/part_001`
(lines 278-348): an `audio` message with a truthy
`audio_event.audio_base_64` is transcoded by `convertAudioToMulaw` and the
converted payload wrapped into a telephony `media` event addressed to the
current `streamSid`; a transcode failure is caught, logged and the chunk
dropped; every other message type (including `conversation_initiation_metadata`,
`error` and parse failures) is only logged. -/
def elevenMessage (st : P1State) (m : Option ElevenMsg) (proc : FfmpegBehavior) :
    P1State × List BridgeAction :=
  match m with
  | none => (st, [])
  | some msg =>
    if msg.type == "audio" && truthyStr msg.audioBase64 then
      match convertAudioToMulaw (msg.audioBase64.getD "") proc with
      | .ok converted => (st, [.sendTwilio (.media st.streamSid converted)])
      | .error _ => (st, [])
    else (st, [])

/-- The `elevenlabs.on ('open')` handler of `src/unnamed/part_001`: sets
`isConnectedToElevenLabs = true` and sends the
`conversation_initiation_client_data` configuration. -/
def elevenOpenHandler (st : P1State) : P1State × List BridgeAction :=
  ({ st with isConnectedToElevenLabs := true, elevenReadyState := .OPEN },
    [.sendEleven .initialConfig])

/-- The `connection.socket.on ('close')` handler of `src/unnamed/part_001`
(lines 351-356): the telephony socket is `CLOSED` when the event fires; the
ElevenLabs socket is closed iff its `readyState` is `OPEN`. -/
def twilioCloseHandler (st : P1State) : P1State × List BridgeAction :=
  let st := { st with twilioReadyState := .CLOSED }
  if st.elevenReadyState = .OPEN then
    ({ st with elevenReadyState := .CLOSING }, [.closeEleven])
  else (st, [])

/-- The `elevenlabs.on ('close')` handler of `src/unnamed/part_001`
(lines 358-364): sets `isConnectedToElevenLabs = false`; the telephony
socket is closed iff its `readyState` is `OPEN`. -/
def elevenCloseHandler (st : P1State) : P1State × List BridgeAction :=
  let st := { st with elevenReadyState := .CLOSED, isConnectedToElevenLabs := false }
  if st.twilioReadyState = .OPEN then
    ({ st with twilioReadyState := .CLOSING }, [.closeTwilio])
  else (st, [])

/-- One event dispatch of the `src/unnamed/part_001` bridge. -/
def step (st : P1State) : P1Event → P1State × List BridgeAction
  | .twilioMessage m => twilioMessage st m
  | .elevenMessage m proc => elevenMessage st m proc
  | .elevenOpen => elevenOpenHandler st
  | .elevenClose => elevenCloseHandler st
  | .twilioClose => twilioCloseHandler st

/-- Run the `src/unnamed/part_001` bridge over a list of events,
accumulating all actions in order. -/
def run (st : P1State) : List P1Event → P1State × List BridgeAction
  | [] => (st, [])
  | e :: rest =>
    let r1 := step st e
    let r2 := run r1.1 rest
    (r2.1, r1.2 ++ r2.2)

end PartOne

/-- Whether an event is a well-formed telephony `stop` message. -/
def isStopEvent : P1Event → Bool
  | .twilioMessage (some m) => m.event == "stop"
  | _ => false

theorem countStartConversation_append (a b : List BridgeAction) :
    countStartConversation (a ++ b) =
      countStartConversation a + countStartConversation b := by
  simp [countStartConversation, List.countP_append]

/-- Once `conversationStarted` holds, any non-`stop` event keeps it set and
sends no further conversation-start signal. -/
theorem P1_step_started_stable (st : P1State) (e : P1Event)
    (hstop : isStopEvent e = false) (h : st.conversationStarted = true) :
    (PartOne.step st e).1.conversationStarted = true ∧
      countStartConversation (PartOne.step st e).2 = 0 := by
  cases e with
  | twilioMessage m =>
    cases m with
    | none => simp [PartOne.step, PartOne.twilioMessage, countStartConversation, h]
    | some msg =>
      simp only [isStopEvent, beq_iff_eq] at hstop
      simp only [PartOne.step, PartOne.twilioMessage]
      split
      · simp [h, countStartConversation]
      · split
        · simp [h, countStartConversation]
        · split
          · simp_all
          · simp [h, countStartConversation]
  | elevenMessage m proc =>
    cases m with
    | none => simp [PartOne.step, PartOne.elevenMessage, countStartConversation, h]
    | some msg =>
      simp only [PartOne.step, PartOne.elevenMessage]
      split
      · split <;> simp [h, countStartConversation]
      · simp [h, countStartConversation]
  | elevenOpen => simp [PartOne.step, PartOne.elevenOpenHandler, h, countStartConversation]
  | elevenClose =>
    simp only [PartOne.step, PartOne.elevenCloseHandler]
    split <;> simp [h, countStartConversation]
  | twilioClose =>
    simp only [PartOne.step, PartOne.twilioCloseHandler]
    split <;> simp [h, countStartConversation]

/-- Any single event sends the conversation-start signal at most once, and
only while setting `conversationStarted`. -/
theorem P1_step_count_le (st : P1State) (e : P1Event) :
    countStartConversation (PartOne.step st e).2 ≤ 1 ∧
      ((PartOne.step st e).1.conversationStarted = false →
        countStartConversation (PartOne.step st e).2 = 0) := by
  cases e with
  | twilioMessage m =>
    cases m with
    | none => simp [PartOne.step, PartOne.twilioMessage, countStartConversation]
    | some msg =>
      simp only [PartOne.step, PartOne.twilioMessage]
      split
      · split
        · simp [countStartConversation]
        · simp [countStartConversation]
      · split
        · simp [countStartConversation]
        · split
          · split <;> simp [countStartConversation]
          · simp [countStartConversation]
  | elevenMessage m proc =>
    cases m with
    | none => simp [PartOne.step, PartOne.elevenMessage, countStartConversation]
    | some msg =>
      simp only [PartOne.step, PartOne.elevenMessage]
      split
      · split <;> simp [countStartConversation]
      · simp [countStartConversation]
  | elevenOpen => simp [PartOne.step, PartOne.elevenOpenHandler, countStartConversation]
  | elevenClose =>
    simp only [PartOne.step, PartOne.elevenCloseHandler]
    split <;> simp [countStartConversation]
  | twilioClose =>
    simp only [PartOne.step, PartOne.twilioCloseHandler]
    split <;> simp [countStartConversation]

/-- Over any `stop`-free trace the conversation-start signal is sent at most
once, and never if `conversationStarted` already holds. -/
theorem P1_run_count (st : P1State) (evs : List P1Event)
    (h : ∀ e ∈ evs, isStopEvent e = false) :
    countStartConversation (PartOne.run st evs).2 ≤
      (if st.conversationStarted = true then 0 else 1) := by
  induction evs generalizing st with
  | nil => simp [PartOne.run, countStartConversation]
  | cons e rest ih =>
    have hne : isStopEvent e = false := h e (by simp)
    have hrest : ∀ x ∈ rest, isStopEvent x = false := fun x hx => h x (by simp [hx])
    simp only [PartOne.run, countStartConversation_append]
    have hrec := ih (PartOne.step st e).1 hrest
    by_cases hst : st.conversationStarted = true
    · obtain ⟨h1, h2⟩ := P1_step_started_stable st e hne hst
      have e1 : (if st.conversationStarted = true then (0:Nat) else 1) = 0 := by
        simp [hst]
      have e2 : (if (PartOne.step st e).1.conversationStarted = true then (0:Nat) else 1) = 0 := by
        simp [h1]
      rw [e2] at hrec
      rw [e1]
      omega
    · simp only [Bool.not_eq_true] at hst
      obtain ⟨h1, h2⟩ := P1_step_count_le st e
      have e1 : (if st.conversationStarted = true then (0:Nat) else 1) = 1 := by
        simp [hst]
      rw [e1]
      by_cases hs1 : (PartOne.step st e).1.conversationStarted = true
      · have e2 : (if (PartOne.step st e).1.conversationStarted = true then (0:Nat) else 1) = 0 := by
          simp [hs1]
        rw [e2] at hrec
        omega
      · simp only [Bool.not_eq_true] at hs1
        have e2 : (if (PartOne.step st e).1.conversationStarted = true then (0:Nat) else 1) = 1 := by
          simp [hs1]
        rw [e2] at hrec
        have := h2 hs1
        omega

/-- C1: for every well-formed telephony `start` event the bridge sends back
exactly one `mark` acknowledgment echoing the event's `streamSid` (the only
telephony-side send of that dispatch), and over any trace of events
containing no `stop` the conversation-start signal is sent to the voice-AI
side at most once, no matter how many `start` events arrive — guarded by
`conversationStarted` (`src/unnamed/part_001`). -/
theorem C1_start_mark_and_conversation_once :
    (∀ (st : P1State) (m : TwilioMsg), m.event = "start" →
      twilioSends (PartOne.step st (.twilioMessage (some m))).2 =
        [TwilioOut.mark m.streamSid]) ∧
    (∀ (st : P1State) (evs : List P1Event),
      (∀ e ∈ evs, isStopEvent e = false) →
      countStartConversation (PartOne.run st evs).2 ≤ 1) := by
  constructor
  · intro st m hm
    simp only [PartOne.step, PartOne.twilioMessage, hm]
    split
    · split <;> simp [twilioSends]
    · simp_all
  · intro st evs h
    have := P1_run_count st evs h
    split at this <;> omega

/-- C1 witness: a concrete session processing two `start` events and a
`media` event sends the conversation-start signal at most once, and the
first `start` is acknowledged by exactly one `mark`. -/
theorem C1_witness :
    twilioSends (PartOne.step ⟨none, true, false, .OPEN, .OPEN⟩
        (.twilioMessage (some ⟨"start", some "CA123", none⟩))).2 =
      [TwilioOut.mark (some "CA123")] ∧
    countStartConversation (PartOne.run ⟨none, true, false, .OPEN, .OPEN⟩
        [.twilioMessage (some ⟨"start", some "CA123", none⟩),
         .twilioMessage (some ⟨"start", some "CA999", none⟩),
         .twilioMessage (some ⟨"media", none, some "AAAA"⟩)]).2 ≤ 1 :=
  ⟨C1_start_mark_and_conversation_once.1 _ _ rfl,
   C1_start_mark_and_conversation_once.2 _ _ (by decide)⟩

/-- C2: a telephony `media` event received while `isConnectedToElevenLabs`
is false is dropped: the session state is unchanged (nothing is buffered)
and no action at all — in particular no send on the voice-AI connection —
is produced (`src/index.js`). -/
theorem C2_media_before_ready_dropped (st : IndexState) (m : TwilioMsg)
    (hm : m.event = "media") (hconn : st.isConnectedToElevenLabs = false) :
    IndexJs.step st (.twilioMessage (some m)) = (st, []) := by
  simp [IndexJs.step, IndexJs.twilioMessage, hm, hconn]

/-- C2 witness: a concrete `media` event before the voice-AI side is ready
produces no state change and no output. -/
theorem C2_witness :
    IndexJs.step ⟨some "CA123", false, .OPEN, .OPEN⟩
        (.twilioMessage (some ⟨"media", none, some "AAAA"⟩)) =
      (⟨some "CA123", false, .OPEN, .OPEN⟩, []) :=
  C2_media_before_ready_dropped _ _ rfl rfl

/-- C3: a voice-AI `audio` event with a (truthy) `audio_event.audio_base_64`
payload is forwarded verbatim as exactly one telephony `media` event whose
`media.payload` is the inbound base64 and whose `streamSid` is the current
session id — including when that id is still null (`src/index.js`, no
transcoder). -/
theorem C3_audio_forwarded_verbatim (st : IndexState) (p : String)
    (hp : p ≠ "") :
    IndexJs.step st (.elevenMessage (some ⟨"audio", some p⟩)) =
      (st, [.sendTwilio (.media st.streamSid p)]) := by
  simp [IndexJs.step, IndexJs.elevenMessage, truthyStr, hp]

/-- C3 witness: with no `start` observed yet (`streamSid = null`) a concrete
`audio` event is still wrapped verbatim into a `media` message. -/
theorem C3_witness :
    IndexJs.step ⟨none, true, .OPEN, .OPEN⟩
        (.elevenMessage (some ⟨"audio", some "XYZ="⟩)) =
      (⟨none, true, .OPEN, .OPEN⟩, [.sendTwilio (.media none "XYZ=")]) :=
  C3_audio_forwarded_verbatim _ _ (by decide)

/-- C4: on a telephony `stop` event, if the voice-AI socket is `OPEN` the
bridge first sends the end-of-conversation signal and then closes it, and
in every case resets `conversationStarted` to false; handling `stop` never
closes the telephony connection (`src/unnamed/part_001`). -/
theorem C4_stop_closes_voice_ai (st : P1State) (m : TwilioMsg)
    (hm : m.event = "stop") :
    (st.elevenReadyState = .OPEN →
      (PartOne.step st (.twilioMessage (some m))).2 =
        [.sendEleven .endConversation, .closeEleven]) ∧
    (st.elevenReadyState ≠ .OPEN →
      (PartOne.step st (.twilioMessage (some m))).2 = []) ∧
    (PartOne.step st (.twilioMessage (some m))).1.conversationStarted = false ∧
    BridgeAction.closeTwilio ∉ (PartOne.step st (.twilioMessage (some m))).2 ∧
    (PartOne.step st (.twilioMessage (some m))).1.twilioReadyState =
      st.twilioReadyState := by
  by_cases hr : st.elevenReadyState = .OPEN <;>
    simp [PartOne.step, PartOne.twilioMessage, hm, hr]

/-- C4 witness: a concrete `stop` with the voice-AI socket `OPEN` sends the
end-of-conversation signal, closes the voice-AI socket and clears
`conversationStarted`. -/
theorem C4_witness :
    (PartOne.step ⟨some "CA123", true, true, .OPEN, .OPEN⟩
        (.twilioMessage (some ⟨"stop", none, none⟩))).2 =
      [.sendEleven .endConversation, .closeEleven] ∧
    (PartOne.step ⟨some "CA123", true, true, .OPEN, .OPEN⟩
        (.twilioMessage (some ⟨"stop", none, none⟩))).1.conversationStarted =
      false :=
  ⟨(C4_stop_closes_voice_ai _ _ rfl).1 rfl,
   (C4_stop_closes_voice_ai _ _ rfl).2.2.1⟩

/-- C5: a message that fails to parse as JSON (from either peer) leaves the
session state unchanged, produces no action, and the rest of the trace is
processed exactly as if the malformed message had never arrived — the
session is never terminated by a decode failure (`src/index.js`). -/
theorem C5_malformed_message_dropped (st : IndexState)
    (evs : List IndexEvent) :
    IndexJs.step st (.twilioMessage none) = (st, []) ∧
    IndexJs.step st (.elevenMessage none) = (st, []) ∧
    IndexJs.run st (.twilioMessage none :: evs) = IndexJs.run st evs ∧
    IndexJs.run st (.elevenMessage none :: evs) = IndexJs.run st evs := by
  refine ⟨rfl, rfl, ?_, ?_⟩ <;>
    simp [IndexJs.run, IndexJs.step, IndexJs.twilioMessage, IndexJs.elevenMessage]

/-- C6: when the authentication call fails (network failure or non-success
HTTP response), the `/media-stream` handler's `catch` closes the telephony
connection, the voice-AI WebSocket is never created, and nothing is ever
sent on the voice-AI side (`src/index.js`). -/
theorem C6_auth_failure_closes_session (resp : Option FetchResponse)
    (h : ∃ e, getSignedUrl resp = .error e) :
    mediaStreamSetup resp =
      { twilioSent := [.connected], twilioClosed := true
        voiceAiOpened := false, voiceAiSent := [] } := by
  obtain ⟨e, he⟩ := h
  simp [mediaStreamSetup, he]

/-- C6 witness: an HTTP 401 response makes `getSignedUrl` throw and the
session fail with the telephony connection closed and no voice-AI
connection. -/
theorem C6_witness :
    mediaStreamSetup (some ⟨false, "Unauthorized", none⟩) =
      { twilioSent := [.connected], twilioClosed := true
        voiceAiOpened := false, voiceAiSent := [] } :=
  C6_auth_failure_closes_session _ ⟨_, rfl⟩

/-- C7: the transcoder resolves with the base64 of the accumulated stdout
bytes exactly when the spawned process exits with code zero; a non-zero
exit code or a spawn failure rejects; and the bridge then drops that audio
chunk — no telephony `media` message is emitted and the session state is
unchanged, so the session continues (`src/unnamed/part_001`). -/
theorem C7_transcoder_contract :
    (∀ (input : String) (chunks : List (List Nat)),
      convertAudioToMulaw input (.closesWith 0 chunks) =
        .ok (base64Encode chunks.flatten)) ∧
    (∀ (input : String) (code : Int) (chunks : List (List Nat)), code ≠ 0 →
      ∃ e, convertAudioToMulaw input (.closesWith code chunks) = .error e) ∧
    (∀ input : String, ∃ e, convertAudioToMulaw input .errorEvent = .error e) ∧
    (∀ (st : P1State) (msg : ElevenMsg) (proc : FfmpegBehavior),
      (∃ err, convertAudioToMulaw (msg.audioBase64.getD "") proc = .error err) →
      PartOne.step st (.elevenMessage (some msg) proc) = (st, [])) := by
  refine ⟨?_, ?_, ?_, ?_⟩
  · intro input chunks
    simp [convertAudioToMulaw]
  · intro input code chunks hc
    simp [convertAudioToMulaw, hc]
  · intro input
    exact ⟨_, rfl⟩
  · intro st msg proc h
    obtain ⟨err, herr⟩ := h
    simp only [PartOne.step, PartOne.elevenMessage]
    split
    · rw [herr]
    · rfl

/-- C7 witness: a zero exit code resolves with the base64 of the collected
stdout; exit code 1 rejects; and a chunk whose conversion rejects produces
no outbound action and leaves a concrete session state unchanged. -/
theorem C7_witness :
    convertAudioToMulaw "eA==" (.closesWith 0 [[77], [97, 110]]) =
      .ok "TWFu" ∧
    (∃ e, convertAudioToMulaw "eA==" (.closesWith 1 [[77]]) = .error e) ∧
    PartOne.step ⟨some "CA123", true, true, .OPEN, .OPEN⟩
        (.elevenMessage (some ⟨"audio", some "AAAA"⟩) (.closesWith 1 [[77]])) =
      (⟨some "CA123", true, true, .OPEN, .OPEN⟩, []) := by
  refine ⟨?_, C7_transcoder_contract.2.1 "eA==" 1 [[77]] (by decide),
    C7_transcoder_contract.2.2.2 _ _ _ ⟨_, rfl⟩⟩
  rw [C7_transcoder_contract.1 "eA==" [[77], [97, 110]]]
  rfl

/-- C8: when either connection signals closed the bridge closes the other
exactly once if it is still `OPEN`; if it is not, no action is taken; a
second close signal is a no-op with no observable second effect; and on the
voice-AI close `isConnectedToElevenLabs` is set to false
(`src/index.js`). -/
theorem C8_close_propagation (st : IndexState) :
    (st.elevenReadyState = .OPEN →
      (IndexJs.step st .twilioClose).2 = [.closeEleven] ∧
      (IndexJs.step st .twilioClose).1.elevenReadyState ≠ .OPEN) ∧
    (st.elevenReadyState ≠ .OPEN → (IndexJs.step st .twilioClose).2 = []) ∧
    IndexJs.step (IndexJs.step st .twilioClose).1 .twilioClose =
      ((IndexJs.step st .twilioClose).1, []) ∧
    (IndexJs.step st .elevenClose).1.isConnectedToElevenLabs = false ∧
    (st.twilioReadyState = .OPEN →
      (IndexJs.step st .elevenClose).2 = [.closeTwilio] ∧
      (IndexJs.step st .elevenClose).1.twilioReadyState ≠ .OPEN) ∧
    (st.twilioReadyState ≠ .OPEN → (IndexJs.step st .elevenClose).2 = []) ∧
    IndexJs.step (IndexJs.step st .elevenClose).1 .elevenClose =
      ((IndexJs.step st .elevenClose).1, []) := by
  obtain ⟨sid, conn, tw, el⟩ := st
  refine ⟨?_, ?_, ?_, ?_, ?_, ?_, ?_⟩ <;>
    cases tw <;> cases el <;>
      simp [IndexJs.step, IndexJs.twilioCloseHandler, IndexJs.elevenCloseHandler]

/-- C8 witness: with both sockets `OPEN`, a telephony close closes the
voice-AI socket once; with the voice-AI socket already `CLOSED` it is a
no-op; a voice-AI close clears `isConnectedToElevenLabs`. -/
theorem C8_witness :
    (IndexJs.step ⟨none, true, .OPEN, .OPEN⟩ .twilioClose).2 =
      [.closeEleven] ∧
    (IndexJs.step ⟨none, true, .OPEN, .CLOSED⟩ .twilioClose).2 = [] ∧
    (IndexJs.step ⟨none, true, .OPEN, .OPEN⟩
        .elevenClose).1.isConnectedToElevenLabs = false :=
  ⟨((C8_close_propagation ⟨none, true, .OPEN, .OPEN⟩).1 rfl).1,
   (C8_close_propagation ⟨none, true, .OPEN, .CLOSED⟩).2.1 (by decide),
   (C8_close_propagation ⟨none, true, .OPEN, .OPEN⟩).2.2.2.1⟩

/-- Whether an event is a well-formed telephony `start` message. -/
def isStartEvent : IndexEvent → Bool
  | .twilioMessage (some m) => m.event == "start"
  | _ => false

/-- C9 counterexample: with the session id already set to `"CA123"`, a
second telephony `start` event carrying `streamSid = "CA999"` changes the
stored session id — `streamSid` is reassigned unconditionally, so it is not
immutable once set (`src/index.js` line 164; `src/unnamed/part_001`
line 230 behaves identically). -/
theorem C9_counterexample :
    (IndexJs.step ⟨some "CA123", true, .OPEN, .OPEN⟩
        (.twilioMessage (some ⟨"start", some "CA999", none⟩))).1.streamSid =
      some "CA999" ∧ (some "CA999" : Option String) ≠ some "CA123" := by
  constructor
  · rfl
  · decide

/-- C9 amended: the session id is modified only by telephony `start` events
— every other event leaves it unchanged — but a subsequent `start` event
overwrites it with that event's `streamSid` (`src/index.js`). -/
theorem C9_sid_overwritten_only_by_start (st : IndexState) :
    (∀ e : IndexEvent, isStartEvent e = false →
      (IndexJs.step st e).1.streamSid = st.streamSid) ∧
    (∀ m : TwilioMsg, m.event = "start" →
      (IndexJs.step st (.twilioMessage (some m))).1.streamSid =
        m.streamSid) := by
  constructor
  · intro e he
    cases e with
    | twilioMessage m =>
      cases m with
      | none => rfl
      | some msg =>
        simp only [isStartEvent] at he
        simp only [IndexJs.step, IndexJs.twilioMessage]
        split
        · simp_all
        · split
          · rfl
          · split
            · split <;> rfl
            · rfl
    | elevenMessage m =>
      cases m with
      | none => rfl
      | some msg =>
        simp only [IndexJs.step, IndexJs.elevenMessage]
        split <;> rfl
    | elevenOpen => rfl
    | elevenClose =>
      simp only [IndexJs.step, IndexJs.elevenCloseHandler]
      split <;> rfl
    | twilioClose =>
      simp only [IndexJs.step, IndexJs.twilioCloseHandler]
      split <;> rfl
  · intro m hm
    simp [IndexJs.step, IndexJs.twilioMessage, hm]

/-- C9 witness: a `media` event leaves a concrete session id unchanged,
while a new `start` event overwrites it. -/
theorem C9_witness :
    (IndexJs.step ⟨some "CA123", true, .OPEN, .OPEN⟩
        (.twilioMessage (some ⟨"media", none, some "AAAA"⟩))).1.streamSid =
      some "CA123" ∧
    (IndexJs.step ⟨some "CA123", true, .OPEN, .OPEN⟩
        (.twilioMessage (some ⟨"start", some "CA999", none⟩))).1.streamSid =
      some "CA999" :=
  ⟨(C9_sid_overwritten_only_by_start ⟨some "CA123", true, .OPEN, .OPEN⟩).1
      _ (by decide),
   (C9_sid_overwritten_only_by_start ⟨some "CA123", true, .OPEN, .OPEN⟩).2
      _ rfl⟩

/-- C10: a telephony `media` event with no `media.payload` field is silently
ignored even when the voice-AI side is connected, and a voice-AI `audio`
event with no `audio_event.audio_base_64` field produces no outbound
telephony `media` message; in both cases the state is unchanged and no
action occurs (`src/index.js`). -/
theorem C10_missing_payload_ignored (st : IndexState) (tm : TwilioMsg)
    (em : ElevenMsg) :
    (tm.event = "media" → tm.mediaPayload = none →
      st.isConnectedToElevenLabs = true →
      IndexJs.step st (.twilioMessage (some tm)) = (st, [])) ∧
    (em.type = "audio" → em.audioBase64 = none →
      IndexJs.step st (.elevenMessage (some em)) = (st, [])) := by
  constructor
  · intro h1 h2 _
    simp [IndexJs.step, IndexJs.twilioMessage, h1, h2, truthyStr]
  · intro h1 h2
    simp [IndexJs.step, IndexJs.elevenMessage, h1, h2, truthyStr]

/-- C10 witness: concrete payload-less `media` and `audio` events are
no-ops even with the voice-AI side connected. -/
theorem C10_witness :
    IndexJs.step ⟨some "CA123", true, .OPEN, .OPEN⟩
        (.twilioMessage (some ⟨"media", none, none⟩)) =
      (⟨some "CA123", true, .OPEN, .OPEN⟩, []) ∧
    IndexJs.step ⟨some "CA123", true, .OPEN, .OPEN⟩
        (.elevenMessage (some ⟨"audio", none⟩)) =
      (⟨some "CA123", true, .OPEN, .OPEN⟩, []) :=
  ⟨(C10_missing_payload_ignored ⟨some "CA123", true, .OPEN, .OPEN⟩
      ⟨"media", none, none⟩ ⟨"audio", none⟩).1 rfl rfl rfl,
   (C10_missing_payload_ignored ⟨some "CA123", true, .OPEN, .OPEN⟩
      ⟨"media", none, none⟩ ⟨"audio", none⟩).2 rfl rfl⟩
